import Mathlib

/-!
Verification development for the smart-environment assistant server
(`src/app.py`).  The Python source is shallowly embedded: pure helper
functions become Lean functions, the Flask route handlers become explicit
state-passing functions over a `ServerState` record, and the two external
LLM backends plus the MySQL store are abstracted as oracle parameters
(their outcomes are inputs, never modelled internals).  Machine integers do
not occur (Python ints are unbounded); timestamps are modelled as `Nat`
seconds.  Python's `str.lower`/`str.upper`/`str.strip` are modelled by the ASCII
`pyLower`/`pyUpper`/`pyStrip` below; every concrete input used in a theorem
below is ASCII, where the ASCII functions agree with Python's.
-/

/-- Model of Python's `pat in s` substring test on lists of characters:
true iff `pat` occurs contiguously in `s`. -/
def subList (pat : List Char) : List Char → Bool
  | [] => pat.isEmpty
  | c :: rest => pat.isPrefixOf (c :: rest) || subList pat rest

/-- Model of Python's `pat in s` substring operator on strings. -/
def strIn (pat s : String) : Bool := subList pat.data s.data

/-- Model of Python's `s.count(pat)` for the patterns used by the source
(`"%s"` and `";"`).  Counts occurrences at every position; this equals
Python's non-overlapping count whenever `pat` cannot overlap itself, which
holds for the two patterns the source counts. -/
def countOcc (pat : List Char) : List Char → Nat
  | [] => 0
  | c :: rest => (if pat.isPrefixOf (c :: rest) then 1 else 0) + countOcc pat rest

/-- True iff `p` is a prefix of `s` (used to state the fallback-apology
property of generated responses). -/
def strStarts (p s : String) : Bool := p.data.isPrefixOf s.data

/-- ASCII model of Python's `str.lower` (all inputs of interest are
ASCII). -/
def pyLower (s : String) : String := String.mk (s.data.map Char.toLower)

/-- ASCII model of Python's `str.upper`. -/
def pyUpper (s : String) : String := String.mk (s.data.map Char.toUpper)

/-- The ASCII whitespace class shared by Python's `\s` and the default
`str.strip`: space, tab, newline, carriage return, vertical tab, form
feed. -/
def pyWs (c : Char) : Bool :=
  c = ' ' || c = '\t' || c = '\n' || c = '\r' || c = Char.ofNat 11 || c = Char.ofNat 12

/-- Model of Python's `str.strip()`: drop leading and trailing
whitespace. -/
def pyStrip (s : String) : String :=
  String.mk (((s.data.dropWhile pyWs).reverse.dropWhile pyWs).reverse)

/-- The `{` character, written via its code point. -/
def braceOpen : Char := Char.ofNat 123

/-- The `}` character, written via its code point. -/
def braceClose : Char := Char.ofNat 125

/-- JSON values, the result type of the modelled `json.loads`.  Numbers are
restricted to integers and strings to escape-free text: inputs outside this
fragment are conservatively treated as unparsable, which no theorem below
depends on (all concrete inputs are inside the fragment). -/
inductive Json where
  | null
  | bool (b : Bool)
  | num (n : Int)
  | str (s : String)
  | arr (elems : List Json)
  | obj (fields : List (String × Json))

/-- JSON whitespace characters (space, tab, newline, carriage return). -/
def jsonWs (c : Char) : Bool := c = ' ' || c = '\t' || c = '\n' || c = '\r'

/-- Drop leading JSON whitespace. -/
def skipWs : List Char → List Char
  | [] => []
  | c :: rest => if jsonWs c then skipWs rest else c :: rest

/-- Numeric value of a digit run. -/
def digitsVal (ds : List Char) : Nat :=
  ds.foldl (fun a c => a * 10 + (c.toNat - 48)) 0

/-- Read the body of a JSON string after the opening quote; fails on a
backslash (escapes are outside the modelled fragment). -/
def takeJsonStr : List Char → Option (String × List Char)
  | [] => none
  | c :: rest =>
    if c = '"' then some ("", rest)
    else if c = '\\' then none
    else (takeJsonStr rest).map (fun p => (String.mk (c :: p.1.data), p.2))

/-- Parse an optionally signed integer literal. -/
def parseIntLit (s : List Char) : Option (Int × List Char) :=
  match s with
  | '-' :: rest =>
    let ds := rest.takeWhile Char.isDigit
    if ds.isEmpty then none
    else some (-(Int.ofNat (digitsVal ds)), rest.drop ds.length)
  | _ =>
    let ds := s.takeWhile Char.isDigit
    if ds.isEmpty then none
    else some (Int.ofNat (digitsVal ds), s.drop ds.length)

mutual

/-- Fuelled JSON value parser (model of the grammar accepted by
`json.loads`, restricted as documented at `Json`). -/
def parseVal : Nat → List Char → Option (Json × List Char)
  | 0, _ => none
  | Nat.succ fuel, s =>
    match skipWs s with
    | [] => none
    | c :: rest =>
      if c = '"' then (takeJsonStr rest).map (fun p => (Json.str p.1, p.2))
      else if c = 't' then
        if ['r', 'u', 'e'].isPrefixOf rest then some (Json.bool true, rest.drop 3) else none
      else if c = 'f' then
        if ['a', 'l', 's', 'e'].isPrefixOf rest then some (Json.bool false, rest.drop 4) else none
      else if c = 'n' then
        if ['u', 'l', 'l'].isPrefixOf rest then some (Json.null, rest.drop 3) else none
      else if c = braceOpen then
        match skipWs rest with
        | c2 :: rest2 =>
          if c2 = braceClose then some (Json.obj [], rest2)
          else
            (parseMembers fuel (c2 :: rest2)).map (fun p => (Json.obj p.1, p.2))
        | [] => none
      else if c = '[' then
        match skipWs rest with
        | c2 :: rest2 =>
          if c2 = ']' then some (Json.arr [], rest2)
          else
            (parseItems fuel (c2 :: rest2)).map (fun p => (Json.arr p.1, p.2))
        | [] => none
      else if c = '-' || c.isDigit then
        (parseIntLit (c :: rest)).map (fun p => (Json.num p.1, p.2))
      else none

/-- Parse one or more `"key": value` members followed by `}`. -/
def parseMembers : Nat → List Char → Option (List (String × Json) × List Char)
  | 0, _ => none
  | Nat.succ fuel, s =>
    match skipWs s with
    | '"' :: rest =>
      match takeJsonStr rest with
      | none => none
      | some (key, rest2) =>
        match skipWs rest2 with
        | ':' :: rest3 =>
          match parseVal fuel rest3 with
          | none => none
          | some (v, rest4) =>
            match skipWs rest4 with
            | ',' :: rest5 =>
              (parseMembers fuel rest5).map (fun p => ((key, v) :: p.1, p.2))
            | c :: rest5 =>
              if c = braceClose then some ([(key, v)], rest5) else none
            | [] => none
        | _ => none
    | _ => none

/-- Parse one or more array items followed by `]`. -/
def parseItems : Nat → List Char → Option (List Json × List Char)
  | 0, _ => none
  | Nat.succ fuel, s =>
    match parseVal fuel s with
    | none => none
    | some (v, rest) =>
      match skipWs rest with
      | ',' :: rest2 => (parseItems fuel rest2).map (fun p => (v :: p.1, p.2))
      | ']' :: rest2 => some ([v], rest2)
      | _ => none

end

/-- Model of `json.loads`: parse a full JSON document, requiring only
trailing whitespace after the value (Python raises on extra data, modelled
as `none`). -/
def jsonLoads (s : String) : Option Json :=
  match parseVal (2 * s.length + 2) s.data with
  | some (v, rest) => if (skipWs rest).isEmpty then some v else none
  | none => none

/-- Second extraction step of `extract_json_from_response` (app.py line
113): `re.search(r'(?:json)?\s*(.*?)\s*', text, re.DOTALL)`.  The pattern
has no mandatory element: at position 0 the optional `(?:json)?` and the
whitespace runs match greedily and the lazy group `(.*?)` matches the empty
string, after which the pattern ends, so the search always succeeds with
group 1 equal to `""`.  (The pattern is a markdown-fence extractor whose
backtick delimiters are missing in the source, leaving the group dead.) -/
def fencedGroup (_text : String) : Option String := some ""

/-- Third extraction step (app.py line 119):
`re.search(r'\{.*\}', text, re.DOTALL)`.  The leftmost-greedy match runs
from the first `{` to the last `}` of the text when the latter comes after
the former, and fails otherwise. -/
def braceSpan (s : List Char) : Option (List Char) :=
  match s.findIdx? (fun c => c = braceOpen) with
  | none => none
  | some i =>
    match s.reverse.findIdx? (fun c => c = braceClose) with
    | none => none
    | some rIdx =>
      let j := s.length - 1 - rIdx
      if i < j then some ((s.drop i).take (j - i + 1)) else none

/-- Model of `extract_json_from_response` (app.py lines 108-125): direct
parse, then the (dead) fence step, then the outermost-brace span, first
success wins, `none` when all fail. -/
def extract_json_from_response (text : String) : Option Json :=
  match jsonLoads text with
  | some v => some v
  | none =>
    match (fencedGroup text).bind jsonLoads with
    | some v => some v
    | none => (braceSpan text.data).bind (fun cs => jsonLoads (String.mk cs))

/-- A SQL query template as passed around by the source: purpose label,
query text, positional parameters. -/
structure QueryInfo where
  purpose : String
  query : String
  parameters : List String
deriving DecidableEq

/-- Model of `get_predefined_queries` (app.py lines 127-164): the two fixed
templates, with the query text reproduced verbatim from the source
(including the triple-quoted-string whitespace). -/
def get_predefined_queries (session_id : String) : List QueryInfo :=
  [{ purpose := "Get recent conversation history for context",
     query := "SELECT \n                message_type,\n                content,\n                metadata,\n                sensor_data,\n                created_at\n            FROM conversations\n            WHERE session_id = %s\n            ORDER BY created_at DESC\n            LIMIT 20",
     parameters := [session_id] },
   { purpose := "Get recent environment changes for context",
     query := "SELECT \n                factor,\n                previous_value,\n                new_value,\n                reasoning,\n                activity_context,\n                created_at\n            FROM environment_changes\n            WHERE session_id = %s\n            ORDER BY created_at DESC\n            LIMIT 15",
     parameters := [session_id] }]

/-- `SCAN_COOLDOWN = 10` seconds (app.py line 42). -/
def SCAN_COOLDOWN : Nat := 10

/-- Model of `can_scan_now` (app.py lines 167-171): true iff at least the
cooldown has elapsed since the last scan.  `time.time()` is modelled as a
`Nat` of seconds; `Nat` subtraction truncates at zero exactly like the
Python comparison rejects a negative difference. -/
def can_scan_now (last_sensor_scan now : Nat) : Bool :=
  decide (SCAN_COOLDOWN ≤ now - last_sensor_scan)

/-- Model of `update_scan_time` (app.py lines 173-176): the new value of
`last_sensor_scan` is the current time. -/
def update_scan_time (now : Nat) : Nat := now

/-- The scan-trigger keyword list (app.py lines 180-183). -/
def scan_keywords : List String :=
  ["scan", "check environment", "current conditions", "real-time",
   "right now", "live data", "update sensors"]

/-- Model of `needs_explicit_scan` (app.py lines 178-186). -/
def needs_explicit_scan (user_message : String) : Bool :=
  let user_lower := pyLower user_message
  scan_keywords.any (fun keyword => strIn keyword user_lower)

/-- The classification record built by `classify_and_generate_queries`.
`needs_sensor_data` is stored as a real boolean (the source coerces it);
`message_type` and `reasoning` are stored as JSON values because the source
copies whatever JSON value the model supplied into the dict. -/
structure Classification where
  needs_sensor_data : Bool
  message_type : Json
  reasoning : Json
  sql_queries : List QueryInfo

/-- Outcome of the classifier's `requests.post` call, abstracting the
hosted model: the call raises (any exception inside the `try`), or the
response JSON has no usable `choices`, or it yields the first choice's
message content. -/
inductive ClassifierTransport where
  | fail
  | noChoices
  | content (s : String)

/-- Python dict lookup where `json.loads` keeps the last duplicate key:
return the value of the last pair with the given key. -/
def lookupLast (k : String) : List (String × Json) → Option Json
  | [] => none
  | (k2, v) :: rest =>
    match lookupLast k rest with
    | some v2 => some v2
    | none => if k2 = k then some v else none

/-- Python truthiness of a JSON value (`bool(x)` on the decoded object). -/
def pyTruthy : Json → Bool
  | .null => false
  | .bool b => b
  | .num n => decide (n ≠ 0)
  | .str s => decide (s ≠ "")
  | .arr l => !l.isEmpty
  | .obj l => !l.isEmpty

/-- The string-to-bool coercion the source applies to a string-valued
`needs_sensor_data`: `needs.strip().lower() in ("true","1","yes")`. -/
def pyStrBool (s : String) : Bool :=
  let t := pyLower (pyStrip s)
  t = "true" || t = "1" || t = "yes"

/-- The safe-default classification dict (app.py lines 250-255). -/
def fallbackClassification : Classification :=
  { needs_sensor_data := true,
    message_type := .str "real_time_optimization",
    reasoning := .str "Fallback: classification failed or unparsable model output",
    sql_queries := [] }

/-- The final query-attachment step (app.py lines 271-277): prehistoric
data gets exactly the predefined queries, sensor data gets none. -/
def attachQueries (c : Classification) (session_id : String) : Classification :=
  if !c.needs_sensor_data then
    { c with sql_queries := get_predefined_queries session_id }
  else
    { c with sql_queries := [] }

/-- Field extraction from a parsed model reply (app.py lines 263-268). -/
def applyParsed (parsed : Option Json) (c : Classification) : Classification :=
  match parsed with
  | some (.obj kvs) =>
    let needs_bool :=
      match lookupLast "needs_sensor_data" kvs with
      | none => true
      | some (.str sv) => pyStrBool sv
      | some v => pyTruthy v
    { c with
      needs_sensor_data := needs_bool,
      message_type := (lookupLast "message_type" kvs).getD c.message_type,
      reasoning := (lookupLast "reasoning" kvs).getD c.reasoning }
  | _ => c

/-- Model of `classify_and_generate_queries` (app.py lines 189-284).  The
returned boolean records whether the hosted classification model was
invoked (`requests.post` reached), instrumenting the call site.  The scan
state and clock are explicit arguments of the (global-reading)
`can_scan_now` call. -/
def classify_and_generate_queries (last_sensor_scan now : Nat)
    (transport : ClassifierTransport)
    (user_message session_id : String) : Classification × Bool :=
  if needs_explicit_scan user_message then
    if can_scan_now last_sensor_scan now then
      ({ needs_sensor_data := true,
         message_type := .str "real_time_scan",
         reasoning := .str "Explicit scan request detected",
         sql_queries := [] }, false)
    else
      ({ needs_sensor_data := false,
         message_type := .str "cached_data_response",
         reasoning := .str "Explicit scan requested but in cooldown, using cached data",
         sql_queries := get_predefined_queries session_id }, false)
  else
    match transport with
    | .fail =>
      ({ needs_sensor_data := true,
         message_type := .str "real_time_optimization",
         reasoning := .str "Fallback due to classifier error",
         sql_queries := [] }, true)
    | .noChoices => (attachQueries fallbackClassification session_id, true)
    | .content s =>
      let content := pyStrip s
      let parsed := if content ≠ "" then extract_json_from_response content else none
      (attachQueries (applyParsed parsed fallbackClassification) session_id, true)

/-- A result row as returned by the dictionary cursor. -/
abbrev Row := List (String × Json)

/-- Abstraction of `cursor.execute` + `fetchall` against the MySQL store:
given query text and parameters, either rows or a raised `Error` text. -/
abbrev DbExec := String → List String → Except String (List Row)

/-- One entry of the `execute_sql_queries` result map.  The source also
stores `row_count`, which is always `data.length` (app.py line 340), so it
is kept derived. -/
inductive QueryResult where
  | ok (purpose : String) (data : List Row)
  | err (purpose : String) (msg : String)

/-- True iff the entry is a per-template error entry. -/
def QueryResult.isErr : QueryResult → Bool
  | .ok _ _ => false
  | .err _ _ => true

/-- The allow-listed tables (app.py line 294).  The source uses a Python
set; only membership is ever consulted, so the iteration order does not
matter for any boolean below. -/
def allowed_tables : List String := ["conversations", "environment_changes"]

/-- The table allow-list test (app.py line 324). -/
def tableAllowed (q_lower : String) : Bool :=
  allowed_tables.any (fun tbl =>
    strIn (" " ++ tbl ++ " ") (" " ++ q_lower ++ " ")
    || strIn ("from " ++ tbl) q_lower
    || strIn ("join " ++ tbl) q_lower)

/-- The per-template validations of `execute_sql_queries`, in source order
(app.py lines 309-329): emptiness, `?` placeholders, `%s`-count versus
parameter count, table allow-list, multi-statement/comment characters (the
source's last check tests the single character `/` twice).  Returns the
raised error message, or `none` when the template may run. -/
def validateTemplate (query : String) (params : List String) : Option String :=
  if pyStrip query = "" then some "Empty or invalid query provided"
  else if strIn "?" query then
    some "Unsafe placeholder \x27?\x27 detected ‚Äî use %s placeholders for mysql.connector"
  else
    let q_lower := pyLower query
    let placeholder_count := countOcc "%s".data query.data
    if placeholder_count ≠ params.length then
      some ("Parameter count mismatch: query expects " ++ toString placeholder_count
            ++ " placeholders but got " ++ toString params.length ++ " parameters")
    else if !tableAllowed q_lower then
      some "Query references disallowed table(s). Allowed tables: conversations, environment_changes"
    else if countOcc ";".data q_lower.data > 1 || strIn "--" q_lower
         || strIn "/" q_lower || strIn "/" q_lower then
      some "Query contains suspicious characters (multiple statements or comments)"
    else none

/-- Processing of a single template inside the loop of
`execute_sql_queries`: a validation failure or an execution `Error` becomes
a per-template error entry, success becomes a data entry. -/
def processOne (db : DbExec) (q : QueryInfo) : QueryResult :=
  match validateTemplate q.query q.parameters with
  | some e => .err q.purpose e
  | none =>
    match db q.query q.parameters with
    | .error e => .err q.purpose e
    | .ok rows => .ok q.purpose rows

/-- The `for i, query_info in enumerate(sql_queries)` loop, labelling each
entry `query_{i+1}` (app.py lines 304-350). -/
def execLoop (db : DbExec) : Nat → List QueryInfo → List (String × QueryResult)
  | _, [] => []
  | i, q :: rest => ("query_" ++ toString (i + 1), processOne db q) :: execLoop db (i + 1) rest

/-- The overall result of `execute_sql_queries`: a single top-level error
dict, or the per-template result map. -/
inductive ExecResults where
  | connError (msg : String)
  | results (entries : List (String × QueryResult))

/-- Model of `execute_sql_queries` (app.py lines 287-360).  The store
connection is an `Option`: `none` models `get_db_connection()` returning
`None`, which yields the single top-level error (app.py lines 296-299). -/
def execute_sql_queries (conn : Option DbExec) (sql_queries : List QueryInfo) : ExecResults :=
  match conn with
  | none => .connError "Database connection failed"
  | some db => .results (execLoop db 0 sql_queries)

/-- The outgoing device-command mapping `esp8266_commands` (app.py line
38), one optional field per key the source ever writes. -/
structure CmdState where
  rgb_color : Option String := none
  buzzer_duration : Option Nat := none
  buzzer_action : Option String := none
  alarm : Option Bool := none
  alarm_duration : Option Nat := none
  alarm_type : Option String := none
  oled_text : Option String := none
deriving DecidableEq

/-- The value returned by one device-control function.  Each constructor
stands for the corresponding returned message string, rendered faithfully
by `renderCmd` below. -/
inductive CmdMsg where
  | rgb (color : String)
  | buzzerSet (duration : Nat)
  | buzzerAction (action : String)
  | buzzerNone
  | alarmSet (duration : Nat) (alarm_type : String)
  | oled (text : String)
deriving DecidableEq

/-- The exact message strings returned by the device-control functions
(app.py lines 530-562). -/
def renderCmd : CmdMsg → String
  | .rgb color => "RGB light set to " ++ color
  | .buzzerSet d => "Buzzer set for " ++ toString d ++ " seconds"
  | .buzzerAction a => "Buzzer " ++ a
  | .buzzerNone => "No buzzer action specified"
  | .alarmSet d ty => "Alarm set for " ++ toString d ++ " seconds (" ++ ty ++ ")"
  | .oled t => "OLED display set to: " ++ t

/-- Model of `control_rgb_color` (app.py lines 530-534). -/
def control_rgb_color (color : String) (st : CmdState) : CmdMsg × CmdState :=
  (.rgb color, { st with rgb_color := some color })

/-- The `elif action:` tail of `control_buzzer`; Python truthiness makes
`None` and the empty string fall through to the no-action message. -/
def control_buzzer_action (action : Option String) (st : CmdState) : CmdMsg × CmdState :=
  match action with
  | some a =>
    if a ≠ "" then (.buzzerAction a, { st with buzzer_action := some a })
    else (.buzzerNone, st)
  | none => (.buzzerNone, st)

/-- Model of `control_buzzer` (app.py lines 536-548); `if duration:` is
Python truthiness, so a zero duration falls through to the action branch. -/
def control_buzzer (duration : Option Nat) (action : Option String) (st : CmdState) : CmdMsg × CmdState :=
  match duration with
  | some d =>
    if d ≠ 0 then
      (.buzzerSet d, { st with buzzer_duration := some d, buzzer_action := some "beep" })
    else control_buzzer_action action st
  | none => control_buzzer_action action st

/-- Model of `set_alarm` (app.py lines 550-556). -/
def set_alarm (duration : Nat) (alarm_type : String) (st : CmdState) : CmdMsg × CmdState :=
  (.alarmSet duration alarm_type,
   { st with alarm := some true, alarm_duration := some duration, alarm_type := some alarm_type })

/-- Model of `set_oled_display` (app.py lines 558-562). -/
def set_oled_display (text : String) (st : CmdState) : CmdMsg × CmdState :=
  (.oled text, { st with oled_text := some text })

/-- The activity keyword table (app.py lines 512-519), in the source's
insertion order. -/
def activity_keywords : List (String × List String) :=
  [("study", ["study", "learn", "exam", "homework", "concentrate"]),
   ("sleep", ["sleep", "bed", "tired", "nap", "rest"]),
   ("yoga", ["yoga", "exercise", "workout", "meditate"]),
   ("read", ["read", "book", "novel", "article"]),
   ("work", ["work", "focus", "project", "deadline"]),
   ("relax", ["relax", "chill", "unwind", "tv", "movie"])]

/-- Model of `extract_activity_context` (app.py lines 509-527): first
matching activity category wins, `"general"` if none match. -/
def extract_activity_context (user_message : String) : String :=
  let user_lower := pyLower user_message
  match activity_keywords.find? (fun p => p.2.any (fun keyword => strIn keyword user_lower)) with
  | some p => p.1
  | none => "general"

/-- One attempted match of `(\d+)\s*sec` at the head of `s`: a maximal
nonempty digit run, optional whitespace, then the literal `sec`.  Shrinking
the greedy digit run can never rescue a failed match (the next element of
the pattern cannot begin with a digit), so the maximal run is exact. -/
def matchNumSecAt (s : List Char) : Option Nat :=
  let ds := s.takeWhile Char.isDigit
  if ds.isEmpty then none
  else
    let rest := (s.drop ds.length).dropWhile pyWs
    if ['s', 'e', 'c'].isPrefixOf rest then some (digitsVal ds) else none

/-- Model of `re.search(r'(\d+)\s*sec', text)` (app.py lines 591, 597):
the leftmost match wins; returns the numeric value of group 1. -/
def findNumSec : List Char → Option Nat
  | [] => none
  | c :: rest =>
    match matchNumSecAt (c :: rest) with
    | some n => some n
    | none => findNumSec rest

/-- The fixed RGB color list of the outer guard (app.py line 572). -/
def color_list : List String :=
  ["red", "blue", "green", "yellow", "purple", "cyan", "white"]

/-- The RGB block of `parse_device_commands` (app.py lines 571-586): outer
guard over the seven listed colors, then an `elif` chain in which the
`purple` branch also fires on `violet`. -/
def rgb_step (combined : String) (st : CmdState) : List CmdMsg × CmdState :=
  if color_list.any (fun color => strIn color combined) then
    if strIn "red" combined then
      let r := control_rgb_color "red" st; ([r.1], r.2)
    else if strIn "blue" combined then
      let r := control_rgb_color "blue" st; ([r.1], r.2)
    else if strIn "green" combined then
      let r := control_rgb_color "green" st; ([r.1], r.2)
    else if strIn "yellow" combined then
      let r := control_rgb_color "yellow" st; ([r.1], r.2)
    else if strIn "purple" combined || strIn "violet" combined then
      let r := control_rgb_color "purple" st; ([r.1], r.2)
    else if strIn "cyan" combined then
      let r := control_rgb_color "cyan" st; ([r.1], r.2)
    else if strIn "white" combined then
      let r := control_rgb_color "white" st; ([r.1], r.2)
    else ([], st)
  else ([], st)

/-- The buzzer block of `parse_device_commands` (app.py lines 588-593). -/
def buzzer_step (combined : String) (st : CmdState) : List CmdMsg × CmdState :=
  if strIn "buzzer" combined || strIn "beep" combined then
    let duration := (findNumSec combined.data).getD 2
    let r := control_buzzer (some duration) none st; ([r.1], r.2)
  else ([], st)

/-- The alarm block of `parse_device_commands` (app.py lines 595-606). -/
def alarm_step (combined : String) (st : CmdState) : List CmdMsg × CmdState :=
  if strIn "alarm" combined then
    let duration := (findNumSec combined.data).getD 10
    let alarm_type :=
      if strIn "urgent" combined || strIn "emergency" combined then "urgent"
      else if strIn "reminder" combined then "reminder"
      else "standard"
    let r := set_alarm duration alarm_type st; ([r.1], r.2)
  else ([], st)

/-- The OLED block of `parse_device_commands` (app.py lines 608-613). -/
def oled_step (combined user_message : String) (st : CmdState) : List CmdMsg × CmdState :=
  if ["display", "show", "oled", "screen"].any (fun word => strIn word combined) then
    let activity_context := extract_activity_context user_message
    let r := set_oled_display ("Activity: " ++ pyUpper activity_context) st; ([r.1], r.2)
  else ([], st)

/-- Model of `parse_device_commands` (app.py lines 564-616): keyword scan
of the lower-cased concatenation of user message and model response,
appending the four blocks' commands in source order and threading the
command-map state through them. -/
def parse_device_commands (llm_response user_message : String) (st : CmdState) : List CmdMsg × CmdState :=
  let combined := pyLower (user_message ++ " " ++ llm_response)
  let r1 := rgb_step combined st
  let r2 := buzzer_step combined r1.2
  let r3 := alarm_step combined r2.2
  let r4 := oled_step combined user_message r3.2
  (r1.1 ++ r2.1 ++ r3.1 ++ r4.1, r4.2)

/-- Python dict lookup on the insertion-ordered association list that
models a dict (keys are unique by construction of `dictInsert`). -/
def dictGet {α : Type} (k : String) : List (String × α) → Option α
  | [] => none
  | (k2, v) :: rest => if k2 = k then some v else dictGet k rest

/-- Python dict assignment `d[k] = v`: overwrite in place, else append. -/
def dictInsert {α : Type} (k : String) (v : α) : List (String × α) → List (String × α)
  | [] => [(k, v)]
  | (k2, v2) :: rest =>
    if k2 = k then (k2, v) :: rest else (k2, v2) :: dictInsert k v rest

/-- Python `d.update(other)`: assign each pair of `other` into `d`. -/
def dictUpdate {α : Type} (other d : List (String × α)) : List (String × α) :=
  other.foldl (fun acc p => dictInsert p.1 p.2 acc) d

/-- One entry of the in-memory `pending_requests` table (app.py lines
739-747).  Timestamp strings are carried opaquely. -/
structure PendingRequest where
  user_message : String
  session_id : String
  classification : Classification
  status : String
  created_at : String
  sensor_data : Option (List (String × Json))
  result : Option String
  completed_at : Option String

/-- The whole process-global mutable state the handlers touch: the pending
table, the scan cooldown timestamp, the shared sensor cache and the device
command map (app.py lines 35-42). -/
structure ServerState where
  pending : List (String × PendingRequest)
  last_sensor_scan : Nat
  current_sensor_data : List (String × Json)
  esp8266_commands : CmdState

/-- The process-start state (app.py lines 35-42). -/
def initialServerState : ServerState :=
  { pending := [],
    last_sensor_scan := 0,
    current_sensor_data := [("temperature", .num 0), ("humidity", .num 0), ("light", .num 0)],
    esp8266_commands := {} }

/-- Zero-padding of `%04d` (the hash is already reduced mod 10000). -/
def pad4 (n : Nat) : String :=
  let s := toString n
  String.mk (List.replicate (4 - s.length) '0') ++ s

/-- The request-id generation of `handle_action_request` (app.py line
735): formatted current time plus `hash(user_message) % 10000`.  The
timestamp string and the Python string hash are explicit inputs; within
one process two calls in the same second with the same message text get
the same two inputs and hence the same id. -/
def make_request_id (timeStr : String) (msgHash : Nat) : String :=
  "req_" ++ timeStr ++ "_" ++ pad4 (msgHash % 10000)

/-- The JSON payload of the action route's immediate reply. -/
structure ActionResponse where
  httpStatus : Nat
  status : String
  request_id : String
  user_message : String
  needs_sensor_data : Bool

/-- Model of `handle_action_request` (app.py lines 731-757): register a
`waiting_for_sensors` entry under the generated id and return at once. -/
def handle_action_request (st : ServerState) (timeStr : String) (msgHash : Nat)
    (nowIso : String) (user_message session_id : String)
    (classification : Classification) : ActionResponse × ServerState :=
  let request_id := make_request_id timeStr msgHash
  let entry : PendingRequest :=
    { user_message := user_message,
      session_id := session_id,
      classification := classification,
      status := "waiting_for_sensors",
      created_at := nowIso,
      sensor_data := none,
      result := none,
      completed_at := none }
  ({ httpStatus := 200,
     status := "waiting_for_sensors",
     request_id := request_id,
     user_message := user_message,
     needs_sensor_data := true },
   { st with pending := dictInsert request_id entry st.pending })

/-- The fixed apology substituted for a failed generation on the
information path (app.py lines 789-793), reproduced verbatim. -/
def llm1_fallback_message : String :=
  "Sorry ‚Äî I\x27m having trouble generating a full answer right now. I can still try to help based on what I remember: please ask again or check the conversation history."

/-- Appending the device-action footer to a response (app.py lines
800-802 and 893-895); the footer text is reproduced verbatim from the
source, including its encoding artifacts. -/
def withDeviceActions (resp : String) (cmds : List CmdMsg) : String :=
  if cmds.isEmpty then resp
  else
    resp ++ "\n\n" ++ "üîß Device Actions:\n"
    ++ String.intercalate "\n" (cmds.map (fun cmd => "‚Ä¢ " ++ renderCmd cmd))

/-- The JSON payload of `handle_info_request`'s reply (app.py lines
819-825). -/
structure InfoResponse where
  httpStatus : Nat
  status : String
  response : String
  needs_sensor_data : Bool
  message_type : Json
  device_commands : List CmdMsg

/-- Model of `handle_info_request` (app.py lines 759-829).  The store
connection and the generation outcome are oracle inputs; the prompt text
built by `build_context_from_query_results` only feeds the generation
call, whose outcome is already the oracle, so it is not reconstructed.
Database writes (`store_conversation`) are external effects with no
in-memory state, and their failures are swallowed by the source.  On a
generation failure the fixed apology is substituted and the handler still
answers with HTTP 200 (lines 785-793). -/
def handle_info_request (conn : Option DbExec) (llm : Except String String)
    (user_message session_id : String) (classification : Classification)
    (esp : CmdState) : InfoResponse × CmdState :=
  let sql_queries := get_predefined_queries session_id
  let _query_results := execute_sql_queries conn sql_queries
  let llm_response :=
    match llm with
    | .ok r => r
    | .error _ => llm1_fallback_message
  let r := parse_device_commands llm_response user_message esp
  let final_response := withDeviceActions llm_response r.1
  ({ httpStatus := 200,
     status := "completed",
     response := final_response,
     needs_sensor_data := false,
     message_type := classification.message_type,
     device_commands := r.1 }, r.2)

/-- The three possible outcomes of `POST /provide_sensor_data/...`. -/
inductive ProvideResult where
  | notFound
  | serverError (msg : String)
  | ok (response : String) (device_commands : List CmdMsg)

/-- HTTP status attached to each `provide_sensor_data` outcome (app.py
lines 845, 929, 939). -/
def ProvideResult.httpStatus : ProvideResult → Nat
  | .notFound => 404
  | .serverError _ => 500
  | .ok _ _ => 200

/-- Model of `provide_sensor_data` (app.py lines 831-939).  The generation
call is an oracle input; a raised generation error escapes the `with`
block before any mutation of the entry, is caught by the handler's outer
`except` and becomes the 500 reply, with only the shared sensor cache
already updated (line 851 precedes the call).  On success the entry is
completed, the command map is updated by the intent extraction and the
scan timestamp is set to the current time (line 925).  Database writes and
`parse_environment_changes` (lines 897-909) only produce external store
records and are not part of the in-memory state. -/
def provide_sensor_data (st : ServerState) (request_id : String)
    (sensor_data : List (String × Json)) (llm : Except String String)
    (now : Nat) (nowIso : String) : ProvideResult × ServerState :=
  match dictGet request_id st.pending with
  | none => (.notFound, st)
  | some request_info =>
    let st1 := { st with current_sensor_data := dictUpdate sensor_data st.current_sensor_data }
    match llm with
    | .error e => (.serverError e, st1)
    | .ok llm_response =>
      let r := parse_device_commands llm_response request_info.user_message st1.esp8266_commands
      let final_response := withDeviceActions llm_response r.1
      let entry := { request_info with
                     result := some final_response,
                     status := "completed",
                     completed_at := some nowIso }
      (.ok final_response r.1,
       { st1 with
         pending := dictInsert request_id entry st1.pending,
         esp8266_commands := r.2,
         last_sensor_scan := update_scan_time now })

/-- The reply of `GET /check_status/...` (app.py lines 976-1001). -/
inductive CheckStatusResult where
  | notFound
  | completed (response : Option String) (user_message : String)
  | waiting (user_message : String)
deriving DecidableEq

/-- Model of `check_status` (app.py lines 976-1001): read-only lookup of a
pending entry. -/
def check_status (st : ServerState) (request_id : String) : CheckStatusResult :=
  match dictGet request_id st.pending with
  | none => .notFound
  | some r =>
    if r.status = "completed" then .completed r.result r.user_message
    else .waiting r.user_message

/-- Model of `POST /force_scan` (app.py lines 1223-1229): reset the scan
cooldown timestamp to zero. -/
def force_scan (st : ServerState) : ServerState :=
  { st with last_sensor_scan := 0 }

/-- The `needs_sensor_data` value the classifier would read out of a model
reply: the reply is stripped, put through `extract_json_from_response`
when nonempty, and the field is looked up when the result is a JSON
object; `none` means the reply is unusable for the decision (unparsable,
not an object, or the field absent). -/
def parsedNeedsField (s : String) : Option Json :=
  let content := pyStrip s
  match (if content ≠ "" then extract_json_from_response content else none) with
  | some (.obj kvs) => lookupLast "needs_sensor_data" kvs
  | _ => none

/-- The color actually chosen by the source's `elif` chain: first match in
the order red, blue, green, yellow, purple-or-violet, cyan, white, with
`violet` selecting purple. -/
def firstMatchingColor (t : String) : Option String :=
  if strIn "red" t then some "red"
  else if strIn "blue" t then some "blue"
  else if strIn "green" t then some "green"
  else if strIn "yellow" t then some "yellow"
  else if strIn "purple" t || strIn "violet" t then some "purple"
  else if strIn "cyan" t then some "cyan"
  else if strIn "white" t then some "white"
  else none

/-- True iff a device command is an rgb_color command. -/
def isRgbCmd : CmdMsg → Bool
  | .rgb _ => true
  | _ => false

/-- The rgb_color commands among a command list. -/
def rgbCmds (cmds : List CmdMsg) : List CmdMsg := cmds.filter isRgbCmd

/-- A concrete classification used by the concrete executions below. -/
def cls0 : Classification :=
  { needs_sensor_data := true,
    message_type := .str "real_time_scan",
    reasoning := .str "Explicit scan request detected",
    sql_queries := [] }

/-- Concrete execution: one action request registered at process start. -/
def traceState1 : ServerState :=
  (handle_action_request initialServerState "20250101_000000" 1234 "t1" "study time" "sess" cls0).2

/-- Concrete execution: the request of `traceState1` completed by a
successful sensor delivery at time 100. -/
def traceState2 : ServerState :=
  (provide_sensor_data traceState1 "req_20250101_000000_1234" [] (.ok "done") 100 "t2").2

/-- Concrete execution: a second action request with the same message text
arriving in the same second as the first, so `handle_action_request`
generates the same id (same formatted timestamp, same Python string hash)
and overwrites the completed entry. -/
def traceState3 : ServerState :=
  (handle_action_request traceState2 "20250101_000000" 1234 "t3" "study time" "sess" cls0).2

/-- A store stub whose every execution returns no rows. -/
def dbT : DbExec := fun _ _ => .ok []

/-- A template whose placeholder count (1) differs from its parameter
count (0). -/
def qMismatch : QueryInfo :=
  { purpose := "pm",
    query := "SELECT * FROM conversations WHERE session_id = %s",
    parameters := [] }

/-- A template that references neither allowed table. -/
def qNoTable : QueryInfo :=
  { purpose := "pt", query := "SELECT 1", parameters := [] }
theorem listPrefix_refl (l : List Char) : l.isPrefixOf l = true := by
  induction l with
  | nil => rfl
  | cons a as ih => simp [List.isPrefixOf, ih]

theorem listPrefix_extend (l s t : List Char) (h : l.isPrefixOf s = true) :
    l.isPrefixOf (s ++ t) = true := by
  induction l generalizing s with
  | nil => cases s <;> cases t <;> rfl
  | cons a as ih =>
    cases s with
    | nil => simp [List.isPrefixOf] at h
    | cons b bs =>
      simp only [List.isPrefixOf, Bool.and_eq_true] at h
      simp [List.isPrefixOf, h.1, ih bs h.2]

theorem listPrefix_append (l t : List Char) : l.isPrefixOf (l ++ t) = true :=
  listPrefix_extend l l t (listPrefix_refl l)

theorem strStarts_append (p t : String) : strStarts p (p ++ t) = true := by
  show p.data.isPrefixOf (p.data ++ t.data) = true
  exact listPrefix_append p.data t.data

theorem strStarts_refl (p : String) : strStarts p p = true := listPrefix_refl p.data

theorem strStarts_extend (p s t : String) (h : strStarts p s = true) :
    strStarts p (s ++ t) = true := by
  show p.data.isPrefixOf (s.data ++ t.data) = true
  exact listPrefix_extend p.data s.data t.data h

theorem strStarts_withDeviceActions (resp : String) (cmds : List CmdMsg) :
    strStarts resp (withDeviceActions resp cmds) = true := by
  unfold withDeviceActions
  split
  · exact strStarts_refl resp
  · exact strStarts_extend _ _ _ (strStarts_extend _ _ _ (strStarts_append resp "\n\n"))

theorem dictGet_insert_eq {α : Type} (k : String) (v : α) (d : List (String × α)) :
    dictGet k (dictInsert k v d) = some v := by
  induction d with
  | nil => simp [dictGet, dictInsert]
  | cons p rest ih =>
    obtain ⟨pk, pv⟩ := p
    by_cases h : pk = k
    · simp [dictInsert, dictGet, h]
    · simp [dictInsert, dictGet, h, ih]

theorem dictGet_insert_ne {α : Type} (k k2 : String) (v : α) (d : List (String × α))
    (h : k2 ≠ k) : dictGet k (dictInsert k2 v d) = dictGet k d := by
  induction d with
  | nil => simp [dictGet, dictInsert, h]
  | cons p rest ih =>
    obtain ⟨pk, pv⟩ := p
    by_cases h2 : pk = k2
    · subst h2
      simp [dictInsert, dictGet, h]
    · simp only [dictInsert, h2, if_false]
      by_cases h3 : pk = k
      · simp [dictGet, h3]
      · simp [dictGet, h3, ih]

theorem attachQueries_needs (c : Classification) (sid : String) :
    (attachQueries c sid).needs_sensor_data = c.needs_sensor_data := by
  unfold attachQueries
  cases h : c.needs_sensor_data <;> simp [h]

theorem attachQueries_sql (c : Classification) (sid : String) :
    (attachQueries c sid).sql_queries =
      (if (attachQueries c sid).needs_sensor_data then [] else get_predefined_queries sid) := by
  unfold attachQueries
  cases h : c.needs_sensor_data <;> simp [h]
theorem provide_error_eq (st : ServerState) (rid : String) (req : PendingRequest)
    (sd : List (String × Json)) (e : String) (now : Nat) (nowIso : String)
    (h : dictGet rid st.pending = some req) :
    provide_sensor_data st rid sd (.error e) now nowIso =
      (.serverError e, { st with current_sensor_data := dictUpdate sd st.current_sensor_data }) := by
  unfold provide_sensor_data
  rw [h]

theorem provide_ok_eq (st : ServerState) (rid : String) (req : PendingRequest)
    (sd : List (String × Json)) (r : String) (now : Nat) (nowIso : String)
    (h : dictGet rid st.pending = some req) :
    provide_sensor_data st rid sd (.ok r) now nowIso =
      (.ok (withDeviceActions r (parse_device_commands r req.user_message st.esp8266_commands).1)
         (parse_device_commands r req.user_message st.esp8266_commands).1,
       { pending := dictInsert rid
           { req with
             result := some (withDeviceActions r (parse_device_commands r req.user_message st.esp8266_commands).1),
             status := "completed",
             completed_at := some nowIso } st.pending,
         last_sensor_scan := update_scan_time now,
         current_sensor_data := dictUpdate sd st.current_sensor_data,
         esp8266_commands := (parse_device_commands r req.user_message st.esp8266_commands).2 }) := by
  unfold provide_sensor_data
  rw [h]

theorem provide_ok_check_status (st : ServerState) (rid : String) (req : PendingRequest)
    (sd : List (String × Json)) (r : String) (now : Nat) (nowIso : String)
    (h : dictGet rid st.pending = some req) :
    check_status (provide_sensor_data st rid sd (.ok r) now nowIso).2 rid =
      .completed (some (withDeviceActions r (parse_device_commands r req.user_message st.esp8266_commands).1))
        req.user_message := by
  rw [provide_ok_eq st rid req sd r now nowIso h]
  unfold check_status
  rw [dictGet_insert_eq]
  rfl

/-- Claim C1: in every outcome of classify_and_generate_queries, whenever the
final decision has needs_sensor_data false the attached sql_queries list is
exactly the two fixed predefined templates of get_predefined_queries
(parameterized solely by the session id), and whenever needs_sensor_data is
true the list is empty -- for every transport outcome, so no text the
classification model produced is ever used to construct query text. -/
theorem classifier_query_list_invariant (last now : Nat) (t : ClassifierTransport)
    (msg sid : String) :
    (classify_and_generate_queries last now t msg sid).1.sql_queries =
      (if (classify_and_generate_queries last now t msg sid).1.needs_sensor_data then []
       else get_predefined_queries sid)
    ∧ (get_predefined_queries sid).map (fun q => q.parameters) = [[sid], [sid]] := by
  refine ⟨?_, rfl⟩
  unfold classify_and_generate_queries
  cases h1 : needs_explicit_scan msg with
  | true =>
    cases h2 : can_scan_now last now <;> simp [h1, h2]
  | false =>
    cases t with
    | fail => simp [h1]
    | noChoices => simp [h1, attachQueries_sql]
    | content s => simp [h1, attachQueries_sql]

/-- Claim C4: for every user message containing an explicit scan keyword,
classify_and_generate_queries returns without invoking the hosted model
(the instrumentation boolean is false and the result is the same for every
transport outcome) and the result is deterministic: cooldown elapsed gives
needs_sensor_data true with message_type real_time_scan and an empty query
list, otherwise needs_sensor_data false with message_type
cached_data_response and the fixed history queries attached. -/
theorem explicit_scan_deterministic (last now : Nat) (t : ClassifierTransport)
    (msg sid : String) (h : needs_explicit_scan msg = true) :
    classify_and_generate_queries last now t msg sid =
      (if can_scan_now last now then
        ({ needs_sensor_data := true,
           message_type := .str "real_time_scan",
           reasoning := .str "Explicit scan request detected",
           sql_queries := [] }, false)
       else
        ({ needs_sensor_data := false,
           message_type := .str "cached_data_response",
           reasoning := .str "Explicit scan requested but in cooldown, using cached data",
           sql_queries := get_predefined_queries sid }, false)) := by
  unfold classify_and_generate_queries
  simp [h]

/-- Witness for C4 at a concrete scan request with the cooldown elapsed. -/
theorem explicit_scan_deterministic_witness :
    needs_explicit_scan "please scan the room" = true
    ∧ classify_and_generate_queries 0 100 .fail "please scan the room" "s1" =
      ({ needs_sensor_data := true,
         message_type := .str "real_time_scan",
         reasoning := .str "Explicit scan request detected",
         sql_queries := [] }, false) := by
  refine ⟨by decide, ?_⟩
  rw [explicit_scan_deterministic 0 100 .fail "please scan the room" "s1" (by decide)]
  rfl

/-- Claim C5 (amended): for every classifier invocation in which the
transport call fails, the response carries no usable choices, the model
output cannot be parsed as a JSON object, or the needs_sensor_data field
itself is absent from the parsed object, the returned classification has
needs_sensor_data true.  (A parsed object that carries needs_sensor_data
but lacks message_type or reasoning does not trigger the safe default:
those fields are merely filled with defaults, as the counterexample
shows.) -/
theorem classifier_safe_default_amended (last now : Nat) (t : ClassifierTransport)
    (msg sid : String) (h1 : needs_explicit_scan msg = false)
    (h2 : match t with
          | .fail => True
          | .noChoices => True
          | .content s => parsedNeedsField s = none) :
    (classify_and_generate_queries last now t msg sid).1.needs_sensor_data = true := by
  unfold classify_and_generate_queries
  cases t with
  | fail => simp [h1]
  | noChoices => simp [h1, attachQueries_needs, fallbackClassification, applyParsed]
  | content s =>
    simp only [h1, Bool.false_eq_true, if_false]
    rw [attachQueries_needs]
    unfold parsedNeedsField at h2
    simp only at h2
    cases hp : (if pyStrip s ≠ "" then extract_json_from_response (pyStrip s) else none) with
    | none => simp [applyParsed, fallbackClassification]
    | some v =>
      rw [hp] at h2
      cases v with
      | obj kvs =>
        have h3 : lookupLast "needs_sensor_data" kvs = none := h2
        simp only [applyParsed]
        rw [h3]
      | null => simp [applyParsed, fallbackClassification]
      | bool b => simp [applyParsed, fallbackClassification]
      | num n => simp [applyParsed, fallbackClassification]
      | str s2 => simp [applyParsed, fallbackClassification]
      | arr l => simp [applyParsed, fallbackClassification]

/-- Witness for C5 at a concrete non-scan message under each failure
shape: transport failure, missing choices, unparsable output. -/
theorem classifier_safe_default_witness :
    needs_explicit_scan "tell me about yesterday" = false
    ∧ (classify_and_generate_queries 0 0 .fail "tell me about yesterday" "s").1.needs_sensor_data = true
    ∧ (classify_and_generate_queries 0 0 .noChoices "tell me about yesterday" "s").1.needs_sensor_data = true
    ∧ (classify_and_generate_queries 0 0 (.content "not json at all") "tell me about yesterday" "s").1.needs_sensor_data = true := by
  refine ⟨by decide, ?_, ?_, ?_⟩
  · exact classifier_safe_default_amended 0 0 .fail "tell me about yesterday" "s" (by decide) trivial
  · exact classifier_safe_default_amended 0 0 .noChoices "tell me about yesterday" "s" (by decide) trivial
  · exact classifier_safe_default_amended 0 0 (.content "not json at all") "tell me about yesterday" "s" (by decide) (by rfl)

/-- Counterexample to C5 as stated: the model output parses to an object
that omits the required fields message_type and reasoning, yet the
classification carries its needs_sensor_data false instead of the safe
default true. -/
theorem classifier_safe_default_counterexample :
    extract_json_from_response "\x7b\"needs_sensor_data\": false\x7d"
        = some (.obj [("needs_sensor_data", Json.bool false)])
    ∧ (classify_and_generate_queries 0 0
        (.content "\x7b\"needs_sensor_data\": false\x7d") "hello" "s").1.needs_sensor_data = false := by
  exact ⟨rfl, rfl⟩

/-- Claim C8 (code bug): extraction is claimed to try a direct parse, then
a fenced-code-block parse, then an outermost-brace parse.  The fenced step
of the source is dead (its regex lost the backtick delimiters, so its
capture group is always empty), hence fenced JSON that the claimed second
step would recover -- here a fenced array, whose contents are valid JSON as
the second conjunct shows -- yields none. -/
theorem extract_json_fenced_bug :
    extract_json_from_response "```json\n[1, 2]\n```" = none
    ∧ jsonLoads "[1, 2]" = some (.arr [.num 1, .num 2]) := ⟨rfl, rfl⟩

theorem execLoop_get? (db : DbExec) (qs : List QueryInfo) (k i : Nat) :
    (execLoop db k qs).get? i =
      (qs.get? i).map (fun q => ("query_" ++ toString (k + i + 1), processOne db q)) := by
  induction qs generalizing k i with
  | nil => simp [execLoop]
  | cons q rest ih =>
    cases i with
    | zero => simp [execLoop]
    | succ j =>
      have h : k + 1 + j + 1 = k + (j + 1) + 1 := by omega
      simp only [execLoop, List.get?]
      rw [ih (k + 1) j, h]

theorem processOne_of_invalid (db : DbExec) (q : QueryInfo) (e : String)
    (h : validateTemplate q.query q.parameters = some e) :
    processOne db q = .err q.purpose e := by
  unfold processOne
  rw [h]

theorem validateTemplate_of_mismatch (q : QueryInfo)
    (h : countOcc "%s".data q.query.data ≠ q.parameters.length) :
    ∃ e, validateTemplate q.query q.parameters = some e := by
  unfold validateTemplate
  dsimp only
  split_ifs <;> exact ⟨_, rfl⟩

theorem validateTemplate_of_noTable (q : QueryInfo)
    (h : tableAllowed (pyLower q.query) = false) :
    ∃ e, validateTemplate q.query q.parameters = some e := by
  unfold validateTemplate
  dsimp only
  split_ifs <;> first
    | exact ⟨_, rfl⟩
    | (exfalso; simp_all)

/-- Claim C6: execute_sql_queries rejects, before running it, every
template whose %s-placeholder count differs from its parameter count and
every template that references neither conversations nor
environment_changes; each rejection is a per-template error entry while
every other template in the batch still gets its own independently
computed entry, and only a store-level connection failure produces the
single top-level error result. -/
theorem sql_executor_validation :
    (∀ qs : List QueryInfo, execute_sql_queries none qs = .connError "Database connection failed")
    ∧ (∀ (db : DbExec) (qs : List QueryInfo) (i : Nat) (q : QueryInfo), qs.get? i = some q →
        ∃ entries, execute_sql_queries (some db) qs = .results entries
          ∧ entries.get? i = some ("query_" ++ toString (i + 1), processOne db q))
    ∧ (∀ (db : DbExec) (q : QueryInfo),
        countOcc "%s".data q.query.data ≠ q.parameters.length →
        ∃ e, processOne db q = .err q.purpose e)
    ∧ (∀ (db : DbExec) (q : QueryInfo),
        tableAllowed (pyLower q.query) = false →
        ∃ e, processOne db q = .err q.purpose e)
    ∧ (∀ (db db2 : DbExec) (q : QueryInfo) (e : String),
        validateTemplate q.query q.parameters = some e →
        processOne db q = processOne db2 q) := by
  refine ⟨fun qs => rfl, ?_, ?_, ?_, ?_⟩
  · intro db qs i q h
    refine ⟨execLoop db 0 qs, rfl, ?_⟩
    rw [execLoop_get? db qs 0 i, h]
    simp
  · intro db q h
    obtain ⟨e, he⟩ := validateTemplate_of_mismatch q h
    exact ⟨e, processOne_of_invalid db q e he⟩
  · intro db q h
    obtain ⟨e, he⟩ := validateTemplate_of_noTable q h
    exact ⟨e, processOne_of_invalid db q e he⟩
  · intro db db2 q e h
    rw [processOne_of_invalid db q e h, processOne_of_invalid db2 q e h]

/-- Witness for C6: concrete rejected templates and a concrete batch in
which the second template still executes. -/
theorem sql_executor_validation_witness :
    execute_sql_queries none [qMismatch] = .connError "Database connection failed"
    ∧ (∃ e, processOne dbT qMismatch = .err "pm" e)
    ∧ (∃ e, processOne dbT qNoTable = .err "pt" e)
    ∧ (∃ entries, execute_sql_queries (some dbT) [qMismatch, qNoTable] = .results entries
        ∧ entries.get? 1 = some ("query_2", processOne dbT qNoTable)) := by
  refine ⟨sql_executor_validation.1 [qMismatch], ?_, ?_, ?_⟩
  · exact sql_executor_validation.2.2.1 dbT qMismatch (by decide)
  · exact sql_executor_validation.2.2.2.1 dbT qNoTable (by decide)
  · exact sql_executor_validation.2.1 dbT [qMismatch, qNoTable] 1 qNoTable (by rfl)

/-- Claim C2 (amended): immediately after creation via the action route a
pending request reports waiting_for_sensors through check_status; after a
successful sensor delivery it reports completed together with the
generated response text; and a completed entry can never revert to
waiting_for_sensors through sensor delivery or status checks, nor through
a later action request whose generated id differs -- the one exception,
forced by the counterexample, being a later action request whose id
collides (same formatted second and same message hash), which overwrites
the completed entry with a fresh waiting one. -/
theorem pending_lifecycle_amended :
    (∀ (st : ServerState) (timeStr : String) (msgHash : Nat) (nowIso msg sid : String)
       (cls : Classification),
      check_status (handle_action_request st timeStr msgHash nowIso msg sid cls).2
          (make_request_id timeStr msgHash) = .waiting msg)
    ∧ (∀ (st : ServerState) (rid : String) (req : PendingRequest)
         (sd : List (String × Json)) (r : String) (now : Nat) (nowIso : String),
        dictGet rid st.pending = some req →
        check_status (provide_sensor_data st rid sd (.ok r) now nowIso).2 rid =
          .completed
            (some (withDeviceActions r (parse_device_commands r req.user_message st.esp8266_commands).1))
            req.user_message)
    ∧ (∀ (st : ServerState) (rid : String) (req : PendingRequest) (rid2 : String)
         (sd : List (String × Json)) (llm : Except String String) (now : Nat) (nowIso : String),
        dictGet rid st.pending = some req → req.status = "completed" →
        ∃ req2, dictGet rid (provide_sensor_data st rid2 sd llm now nowIso).2.pending = some req2
          ∧ req2.status = "completed")
    ∧ (∀ (st : ServerState) (rid : String) (req : PendingRequest) (timeStr : String)
         (msgHash : Nat) (nowIso msg sid : String) (cls : Classification),
        dictGet rid st.pending = some req → req.status = "completed" →
        make_request_id timeStr msgHash ≠ rid →
        dictGet rid (handle_action_request st timeStr msgHash nowIso msg sid cls).2.pending = some req) := by
  refine ⟨?_, ?_, ?_, ?_⟩
  · intro st timeStr msgHash nowIso msg sid cls
    unfold handle_action_request check_status
    simp only
    rw [dictGet_insert_eq]
    rfl
  · intro st rid req sd r now nowIso h
    exact provide_ok_check_status st rid req sd r now nowIso h
  · intro st rid req rid2 sd llm now nowIso h hc
    cases hl : dictGet rid2 st.pending with
    | none =>
      unfold provide_sensor_data
      rw [hl]
      exact ⟨req, h, hc⟩
    | some req2 =>
      cases llm with
      | error e =>
        rw [provide_error_eq st rid2 req2 sd e now nowIso hl]
        exact ⟨req, h, hc⟩
      | ok r =>
        rw [provide_ok_eq st rid2 req2 sd r now nowIso hl]
        by_cases he : rid2 = rid
        · subst he
          refine ⟨{ req2 with
                    result := some (withDeviceActions r
                      (parse_device_commands r req2.user_message st.esp8266_commands).1),
                    status := "completed",
                    completed_at := some nowIso }, ?_, rfl⟩
          simp only
          rw [dictGet_insert_eq]
        · refine ⟨req, ?_, hc⟩
          simp only
          rw [dictGet_insert_ne rid rid2 _ st.pending he, h]
  · intro st rid req timeStr msgHash nowIso msg sid cls h hc hne
    unfold handle_action_request
    simp only
    rw [dictGet_insert_ne rid (make_request_id timeStr msgHash) _ st.pending hne, h]

/-- Counterexample to C2 as stated: a concrete operation sequence --
create, complete, then create again with the same message text in the
same second -- makes check_status of the same request id go from completed
back to waiting_for_sensors. -/
theorem pending_lifecycle_counterexample :
    check_status traceState1 "req_20250101_000000_1234" = .waiting "study time"
    ∧ check_status traceState2 "req_20250101_000000_1234" = .completed (some "done") "study time"
    ∧ check_status traceState3 "req_20250101_000000_1234" = .waiting "study time" := by
  refine ⟨?_, ?_, ?_⟩ <;> decide

/-- Witness for C2 at a concrete creation and a concrete completion. -/
theorem pending_lifecycle_amended_witness :
    check_status (handle_action_request initialServerState "20250101_000000" 1234 "t1"
        "study time" "sess" cls0).2 "req_20250101_000000_1234" = .waiting "study time"
    ∧ check_status (provide_sensor_data traceState1 "req_20250101_000000_1234" [] (.ok "done")
        100 "t2").2 "req_20250101_000000_1234" = .completed (some "done") "study time" := by
  constructor
  · exact pending_lifecycle_amended.1 initialServerState "20250101_000000" 1234 "t1"
      "study time" "sess" cls0
  · exact pending_lifecycle_amended.2.1 traceState1 "req_20250101_000000_1234"
      { user_message := "study time", session_id := "sess", classification := cls0,
        status := "waiting_for_sensors", created_at := "t1", sensor_data := none,
        result := none, completed_at := none } [] "done" 100 "t2" rfl

/-- Claim C3 (amended): when the generation backend fails, the
historical-data chat path still answers HTTP 200 with the fixed apology at
the head of the payload response; the sensor-delivery completion path does
not -- it returns the serverError outcome with HTTP status 500. -/
theorem generation_failure_amended :
    (∀ (conn : Option DbExec) (e : String) (msg sid : String) (cls : Classification)
       (esp : CmdState),
      (handle_info_request conn (.error e) msg sid cls esp).1.httpStatus = 200
      ∧ (handle_info_request conn (.error e) msg sid cls esp).1.status = "completed"
      ∧ strStarts llm1_fallback_message
          (handle_info_request conn (.error e) msg sid cls esp).1.response = true)
    ∧ (∀ (st : ServerState) (rid : String) (req : PendingRequest)
         (sd : List (String × Json)) (e : String) (now : Nat) (nowIso : String),
        dictGet rid st.pending = some req →
        (provide_sensor_data st rid sd (.error e) now nowIso).1 = .serverError e
        ∧ ((provide_sensor_data st rid sd (.error e) now nowIso).1).httpStatus = 500) := by
  constructor
  · intro conn e msg sid cls esp
    refine ⟨rfl, rfl, ?_⟩
    exact strStarts_withDeviceActions llm1_fallback_message _
  · intro st rid req sd e now nowIso h
    rw [provide_error_eq st rid req sd e now nowIso h]
    exact ⟨rfl, rfl⟩

/-- Counterexample to C3 as stated: a concrete generation failure inside
the sensor-delivery handler produces a 500 error outcome, not HTTP 200
with the apology. -/
theorem generation_failure_counterexample :
    (provide_sensor_data traceState1 "req_20250101_000000_1234" [] (.error "timeout") 5 "t2").1
      = .serverError "timeout"
    ∧ ProvideResult.httpStatus
        ((provide_sensor_data traceState1 "req_20250101_000000_1234" [] (.error "timeout") 5 "t2").1)
      = 500 := ⟨rfl, rfl⟩

/-- Witness for C3 at concrete failures on both paths. -/
theorem generation_failure_amended_witness :
    (handle_info_request none (.error "timeout") "hello" "s" cls0 {}).1.httpStatus = 200
    ∧ strStarts llm1_fallback_message
        (handle_info_request none (.error "timeout") "hello" "s" cls0 {}).1.response = true
    ∧ (provide_sensor_data traceState1 "req_20250101_000000_1234" [] (.error "x") 5 "t2").1.httpStatus = 500 := by
  refine ⟨(generation_failure_amended.1 none "timeout" "hello" "s" cls0 {}).1,
          (generation_failure_amended.1 none "timeout" "hello" "s" cls0 {}).2.2, ?_⟩
  exact (generation_failure_amended.2 traceState1 "req_20250101_000000_1234"
    { user_message := "study time", session_id := "sess", classification := cls0,
      status := "waiting_for_sensors", created_at := "t1", sensor_data := none,
      result := none, completed_at := none } [] "x" 5 "t2" rfl).2

/-- Claim C7: immediately after a successful sensor-delivery completion
sets the scan timestamp to the current time, can_scan_now is false and
stays false until the 10-second cooldown has elapsed; once the cooldown
has elapsed since the last scan, or after force_scan resets the timestamp
(given wall-clock time at least the cooldown), can_scan_now is true. -/
theorem scan_cooldown_behavior :
    (∀ tc tn : Nat, tn < tc + SCAN_COOLDOWN →
        can_scan_now (update_scan_time tc) tn = false)
    ∧ (∀ (st : ServerState) (rid : String) (req : PendingRequest)
         (sd : List (String × Json)) (r : String) (now : Nat) (nowIso : String),
        dictGet rid st.pending = some req →
        (provide_sensor_data st rid sd (.ok r) now nowIso).2.last_sensor_scan = update_scan_time now
        ∧ can_scan_now (provide_sensor_data st rid sd (.ok r) now nowIso).2.last_sensor_scan now = false)
    ∧ (∀ last now : Nat, last + SCAN_COOLDOWN ≤ now → can_scan_now last now = true)
    ∧ (∀ (st : ServerState) (now : Nat), SCAN_COOLDOWN ≤ now →
        can_scan_now (force_scan st).last_sensor_scan now = true) := by
  have h10 : SCAN_COOLDOWN = 10 := rfl
  refine ⟨?_, ?_, ?_, ?_⟩
  · intro tc tn h
    rw [h10] at h
    simp only [can_scan_now, update_scan_time, h10, decide_eq_false_iff_not]
    omega
  · intro st rid req sd r now nowIso h
    rw [provide_ok_eq st rid req sd r now nowIso h]
    refine ⟨rfl, ?_⟩
    simp only [can_scan_now, update_scan_time, h10, decide_eq_false_iff_not]
    omega
  · intro last now h
    rw [h10] at h
    simp only [can_scan_now, h10, decide_eq_true_eq]
    omega
  · intro st now h
    rw [h10] at h
    simp only [can_scan_now, force_scan, h10, decide_eq_true_eq]
    omega

/-- Witness for C7 at concrete times and a concrete completion. -/
theorem scan_cooldown_behavior_witness :
    can_scan_now (update_scan_time 50) 50 = false
    ∧ (provide_sensor_data traceState1 "req_20250101_000000_1234" [] (.ok "done") 100 "t2").2.last_sensor_scan = 100
    ∧ can_scan_now 50 60 = true
    ∧ can_scan_now (force_scan traceState2).last_sensor_scan 100 = true := by
  refine ⟨scan_cooldown_behavior.1 50 50 (by decide), ?_,
          scan_cooldown_behavior.2.2.1 50 60 (by decide),
          scan_cooldown_behavior.2.2.2 traceState2 100 (by decide)⟩
  exact (scan_cooldown_behavior.2.1 traceState1 "req_20250101_000000_1234"
    { user_message := "study time", session_id := "sess", classification := cls0,
      status := "waiting_for_sensors", created_at := "t1", sensor_data := none,
      result := none, completed_at := none } [] "done" 100 "t2" rfl).1

/-- Claim C10: if the generation call inside the sensor-delivery handler
fails, the handler returns a 500 error and the pending table, the scan
timestamp and the command map are all left unchanged -- in particular the
entry itself (still waiting, result still absent) -- so a later successful
sensor delivery still completes the same request. -/
theorem provide_failure_leaves_request_pending (st : ServerState) (rid : String)
    (req : PendingRequest) (sd : List (String × Json)) (e : String) (now : Nat)
    (nowIso : String) (h : dictGet rid st.pending = some req) :
    (provide_sensor_data st rid sd (.error e) now nowIso).1 = .serverError e
    ∧ ProvideResult.httpStatus ((provide_sensor_data st rid sd (.error e) now nowIso).1) = 500
    ∧ (provide_sensor_data st rid sd (.error e) now nowIso).2.pending = st.pending
    ∧ (provide_sensor_data st rid sd (.error e) now nowIso).2.last_sensor_scan = st.last_sensor_scan
    ∧ (provide_sensor_data st rid sd (.error e) now nowIso).2.esp8266_commands = st.esp8266_commands
    ∧ dictGet rid (provide_sensor_data st rid sd (.error e) now nowIso).2.pending = some req
    ∧ (∀ (sd2 : List (String × Json)) (r : String) (now2 : Nat) (nowIso2 : String),
        check_status (provide_sensor_data
            (provide_sensor_data st rid sd (.error e) now nowIso).2 rid sd2 (.ok r) now2 nowIso2).2 rid
          = .completed
              (some (withDeviceActions r (parse_device_commands r req.user_message st.esp8266_commands).1))
              req.user_message) := by
  rw [provide_error_eq st rid req sd e now nowIso h]
  refine ⟨rfl, rfl, rfl, rfl, rfl, h, ?_⟩
  intro sd2 r now2 nowIso2
  exact provide_ok_check_status _ rid req sd2 r now2 nowIso2 h

/-- Witness for C10 at a concrete failed then retried delivery. -/
theorem provide_failure_leaves_request_pending_witness :
    (provide_sensor_data traceState1 "req_20250101_000000_1234" [] (.error "boom") 5 "t2").2.pending
      = traceState1.pending
    ∧ check_status (provide_sensor_data
        (provide_sensor_data traceState1 "req_20250101_000000_1234" [] (.error "boom") 5 "t2").2
        "req_20250101_000000_1234" [] (.ok "done") 100 "t3").2 "req_20250101_000000_1234"
      = .completed (some "done") "study time" := by
  have h := provide_failure_leaves_request_pending traceState1 "req_20250101_000000_1234"
    { user_message := "study time", session_id := "sess", classification := cls0,
      status := "waiting_for_sensors", created_at := "t1", sensor_data := none,
      result := none, completed_at := none } [] "boom" 5 "t2" rfl
  exact ⟨h.2.2.1, h.2.2.2.2.2.2 [] "done" 100 "t3"⟩

theorem buzzer_step_rgb (t : String) (st : CmdState) :
    rgbCmds (buzzer_step t st).1 = [] ∧ (buzzer_step t st).2.rgb_color = st.rgb_color := by
  unfold buzzer_step control_buzzer control_buzzer_action
  split
  · dsimp only
    split
    · exact ⟨rfl, rfl⟩
    · exact ⟨rfl, rfl⟩
  · exact ⟨rfl, rfl⟩

theorem alarm_step_rgb (t : String) (st : CmdState) :
    rgbCmds (alarm_step t st).1 = [] ∧ (alarm_step t st).2.rgb_color = st.rgb_color := by
  unfold alarm_step set_alarm
  split
  · exact ⟨rfl, rfl⟩
  · exact ⟨rfl, rfl⟩

theorem oled_step_rgb (t u : String) (st : CmdState) :
    rgbCmds (oled_step t u st).1 = [] ∧ (oled_step t u st).2.rgb_color = st.rgb_color := by
  unfold oled_step set_oled_display
  split
  · exact ⟨rfl, rfl⟩
  · exact ⟨rfl, rfl⟩

theorem rgb_step_pos (t : String) (st : CmdState)
    (h : color_list.any (fun color => strIn color t) = true) :
    ∃ c, firstMatchingColor t = some c
      ∧ rgb_step t st = ([.rgb c], { st with rgb_color := some c }) := by
  have hdisj : strIn "red" t = true ∨ strIn "blue" t = true ∨ strIn "green" t = true
      ∨ strIn "yellow" t = true ∨ strIn "purple" t = true ∨ strIn "cyan" t = true
      ∨ strIn "white" t = true := by
    simpa [color_list] using h
  unfold rgb_step firstMatchingColor control_rgb_color
  simp only [h, if_true]
  by_cases h1 : strIn "red" t = true
  · exact ⟨"red", by simp [h1], by simp [h1]⟩
  simp only [h1, if_false]
  by_cases h2 : strIn "blue" t = true
  · exact ⟨"blue", by simp [h1, h2], by simp [h2]⟩
  simp only [h2, if_false]
  by_cases h3 : strIn "green" t = true
  · exact ⟨"green", by simp [h1, h2, h3], by simp [h3]⟩
  simp only [h3, if_false]
  by_cases h4 : strIn "yellow" t = true
  · exact ⟨"yellow", by simp [h1, h2, h3, h4], by simp [h4]⟩
  simp only [h4, if_false]
  by_cases h5 : (strIn "purple" t || strIn "violet" t) = true
  · exact ⟨"purple", by simp [h1, h2, h3, h4, h5], by simp [h5]⟩
  simp only [h5, if_false]
  by_cases h6 : strIn "cyan" t = true
  · exact ⟨"cyan", by simp [h1, h2, h3, h4, h5, h6], by simp [h6]⟩
  simp only [h6, if_false]
  by_cases h7 : strIn "white" t = true
  · exact ⟨"white", by simp [h1, h2, h3, h4, h5, h6, h7], by simp [h7]⟩
  exfalso
  simp only [Bool.or_eq_true] at h5
  tauto

theorem rgb_step_neg (t : String) (st : CmdState)
    (h : color_list.any (fun color => strIn color t) = false) :
    rgb_step t st = ([], st) := by
  unfold rgb_step
  simp [h]

/-- rgbCmds distributes over append. -/
theorem rgbCmds_append (a b : List CmdMsg) : rgbCmds (a ++ b) = rgbCmds a ++ rgbCmds b := by
  simp [rgbCmds, List.filter_append]

theorem parse_device_commands_rgb (llm_response user_message : String) (st : CmdState) :
    rgbCmds (parse_device_commands llm_response user_message st).1
        = rgbCmds (rgb_step (pyLower (user_message ++ " " ++ llm_response)) st).1
    ∧ (parse_device_commands llm_response user_message st).2.rgb_color
        = (rgb_step (pyLower (user_message ++ " " ++ llm_response)) st).2.rgb_color := by
  unfold parse_device_commands
  dsimp only
  constructor
  · rw [rgbCmds_append, rgbCmds_append, rgbCmds_append,
        (buzzer_step_rgb _ _).1, (alarm_step_rgb _ _).1, (oled_step_rgb _ _ _).1]
    simp
  · rw [(oled_step_rgb _ _ _).2, (alarm_step_rgb _ _).2, (buzzer_step_rgb _ _).2]

/-- Claim C9 (amended): for every pair of user message and model response
whose lower-cased concatenation contains at least one of red, blue, green,
yellow, purple, cyan, white, parse_device_commands produces exactly one
rgb_color command, chosen by first match in the order red, blue, green,
yellow, purple-or-violet, cyan, white -- an occurrence of violet selects
purple ahead of cyan and white; when none of the seven names occurs, no
rgb_color command is produced and the stored color is untouched. -/
theorem rgb_first_match_amended (llm_response user_message : String) (st : CmdState) :
    (color_list.any (fun color => strIn color (pyLower (user_message ++ " " ++ llm_response))) = true →
      ∃ c, firstMatchingColor (pyLower (user_message ++ " " ++ llm_response)) = some c
        ∧ rgbCmds (parse_device_commands llm_response user_message st).1 = [.rgb c]
        ∧ (parse_device_commands llm_response user_message st).2.rgb_color = some c)
    ∧ (color_list.any (fun color => strIn color (pyLower (user_message ++ " " ++ llm_response))) = false →
      rgbCmds (parse_device_commands llm_response user_message st).1 = []
        ∧ (parse_device_commands llm_response user_message st).2.rgb_color = st.rgb_color) := by
  constructor
  · intro h
    obtain ⟨c, hc, hstep⟩ := rgb_step_pos (pyLower (user_message ++ " " ++ llm_response)) st h
    refine ⟨c, hc, ?_, ?_⟩
    · rw [(parse_device_commands_rgb llm_response user_message st).1, hstep]
      rfl
    · rw [(parse_device_commands_rgb llm_response user_message st).2, hstep]
  · intro h
    have hstep := rgb_step_neg (pyLower (user_message ++ " " ++ llm_response)) st h
    constructor
    · rw [(parse_device_commands_rgb llm_response user_message st).1, hstep]
      rfl
    · rw [(parse_device_commands_rgb llm_response user_message st).2, hstep]

/-- Counterexample to C9 as stated: a text containing cyan (and none of
red, blue, green, yellow, purple) must, per the claim, yield cyan as the
first matching listed color, but the source yields purple because the
text also contains violet. -/
theorem rgb_first_match_counterexample :
    (parse_device_commands "" "make it violet and cyan" {}).1 = [CmdMsg.rgb "purple"]
    ∧ strIn "cyan" (pyLower ("make it violet and cyan" ++ " " ++ "")) = true
    ∧ strIn "red" (pyLower ("make it violet and cyan" ++ " " ++ "")) = false
    ∧ strIn "blue" (pyLower ("make it violet and cyan" ++ " " ++ "")) = false
    ∧ strIn "green" (pyLower ("make it violet and cyan" ++ " " ++ "")) = false
    ∧ strIn "yellow" (pyLower ("make it violet and cyan" ++ " " ++ "")) = false
    ∧ strIn "purple" (pyLower ("make it violet and cyan" ++ " " ++ "")) = false := by
  refine ⟨?_, ?_, ?_, ?_, ?_, ?_, ?_⟩ <;> decide

/-- Witness for C9 at a concrete colored and a concrete colorless text. -/
theorem rgb_first_match_amended_witness :
    color_list.any (fun color => strIn color (pyLower ("turn the light red" ++ " " ++ "ok"))) = true
    ∧ (∃ c, firstMatchingColor (pyLower ("turn the light red" ++ " " ++ "ok")) = some c
        ∧ rgbCmds (parse_device_commands "ok" "turn the light red" {}).1 = [.rgb c]
        ∧ (parse_device_commands "ok" "turn the light red" {}).2.rgb_color = some c)
    ∧ color_list.any (fun color => strIn color (pyLower ("hello there" ++ " " ++ "ok"))) = false
    ∧ rgbCmds (parse_device_commands "ok" "hello there" {}).1 = [] := by
  refine ⟨by decide, ?_, by decide, ?_⟩
  · exact (rgb_first_match_amended "ok" "turn the light red" {}).1 (by decide)
  · exact ((rgb_first_match_amended "ok" "hello there" {}).2 (by decide)).1
